import Mathlib

/-!
Verification development for the investment-analysis pipeline
(`src/agents/coordinator.py`, `financial_agent.py`, `sentiment_agent.py`,
`synthesizer.py`, `src/graph/state.py`, `src/mcps/market_data.py`,
`src/main.py`).

Python strings are modelled as lists of characters (`Str`), Python/JSON
values as the inductive `Json` (numbers as rationals), and each agent as a
function from the shared state (plus the responses of the external
collaborators, passed in as data) to the mapping it returns, together with
the list of collaborator calls it performed on that path.
-/

set_option maxRecDepth 10000

/-- Python strings as lists of characters. -/
abbrev Str := List Char

/-- Conversion from Lean string literals. -/
def pyS (s : String) : Str := s.toList

/-- Characters treated as whitespace by Python `str.strip()` (ASCII part). -/
def pyIsSpace (c : Char) : Bool :=
  c == ' ' || c == '\t' || c == '\n' || c == '\r' || c == '\x0b' || c == '\x0c'

/-- Python `str.strip()`. -/
def pyStrip (t : Str) : Str :=
  ((t.dropWhile pyIsSpace).reverse.dropWhile pyIsSpace).reverse

/-- Python `str.upper()` (ASCII). -/
def pyUpper (t : Str) : Str := t.map Char.toUpper

/-- Python `str.lower()` (ASCII). -/
def pyLower (t : Str) : Str := t.map Char.toLower

/-- Python `str.startswith(pre)`. -/
def pyStartsWith (t pre : Str) : Bool := pre.isPrefixOf t

/-- Python `needle in haystack` (substring test). -/
def pyIn (w q : Str) : Bool := decide (w <:+: q)

/-- Python `text.split('\n')`. -/
def pySplitNl : Str → List Str
  | [] => [[]]
  | c :: cs =>
    let r := pySplitNl cs
    if c == '\n' then [] :: r
    else
      match r with
      | h :: t => (c :: h) :: t
      | [] => [[c]]

/-- Python `'\n'.join(lines)`. -/
def pyJoinNl (ls : List Str) : Str := List.intercalate [(Char.ofNat 10)] ls

/-- Decimal digits of a natural number. -/
def natStr (n : Nat) : Str := Nat.toDigits 10 n

/-- Decimal rendering of an integer. -/
def intStr (i : Int) : Str :=
  if i < 0 then '-' :: natStr i.natAbs else natStr i.natAbs

/-- JSON / Python values produced by `json.loads` in the agents.  Numbers are
modelled as rationals (Python int/float conflated); `nan`, `inf`, `ninf`
model the non-standard literals `NaN` / `Infinity` / `-Infinity` that
`json.loads` accepts.  Objects are association lists in insertion order,
mirroring Python dicts. -/
inductive Json where
  | null
  | bool (b : Bool)
  | num (q : Rat)
  | str (s : Str)
  | arr (elems : List Json)
  | obj (fields : List (Str × Json))
  | nan
  | inf
  | ninf

/-- Python dict lookup on an association list (objects built here never hold
duplicate keys, matching dict semantics). -/
def assocFind : List (Str × Json) → Str → Option Json
  | [], _ => none
  | (k, v) :: fs, key => if k = key then some v else assocFind fs key

/-- Python dict item assignment `d[k] = v`: replaces the value in place if
the key exists (keeping its position), otherwise appends. -/
def assocSet : List (Str × Json) → Str → Json → List (Str × Json)
  | [], key, v => [(key, v)]
  | (k, w) :: fs, key, v =>
    if k = key then (k, v) :: fs else (k, w) :: assocSet fs key v

/-- `d.get(k)` on an object, `none` otherwise. -/
def jFind (j : Json) (k : Str) : Option Json :=
  match j with
  | Json.obj fs => assocFind fs k
  | _ => none

/-- Whether the value is a dict. -/
def Json.isObj : Json → Bool
  | Json.obj _ => true
  | _ => false

/-- Python `d[k] = v`; `none` models the `TypeError` raised when the value is
not a dict. -/
def pySetField (j : Json) (k : Str) (v : Json) : Option Json :=
  match j with
  | Json.obj fs => some (Json.obj (assocSet fs k v))
  | _ => none

/-- Python truthiness of a value. -/
def pyTruthy : Json → Bool
  | Json.null => false
  | Json.bool b => b
  | Json.num q => !(q == 0)
  | Json.str s => !s.isEmpty
  | Json.arr l => !l.isEmpty
  | Json.obj fs => !fs.isEmpty
  | Json.nan => true
  | Json.inf => true
  | Json.ninf => true

/-- Truthiness of an optional state field (`None` for `none`). -/
def pyTruthyOpt : Option Json → Bool
  | none => false
  | some j => pyTruthy j

/-- The Python type name of a value, for exception messages. -/
def typeName : Json → Str
  | Json.null => pyS "NoneType"
  | Json.bool _ => pyS "bool"
  | Json.num _ => pyS "float"
  | Json.str _ => pyS "str"
  | Json.arr _ => pyS "list"
  | Json.obj _ => pyS "dict"
  | _ => pyS "float"

/-- Message of the `TypeError` raised by item assignment on a non-dict. -/
def itemAssignErrMsg (j : Json) : Str :=
  pyS "'" ++ typeName j ++ pyS "' object does not support item assignment"

/-- Message of the `AttributeError` raised by `.get` on a non-dict. -/
def noGetErrMsg (j : Json) : Str :=
  pyS "'" ++ typeName j ++ pyS "' object has no attribute 'get'"

/-- Two-decimal rendering of `n / 100`. -/
def pad2 (f : Nat) : Str := if f < 10 then '0' :: natStr f else natStr f

/-- Round `n / d` (with `d > 0`) to the nearest integer, ties to even, as
CPython float formatting rounds. -/
def roundHalfEvenNat (n d : Nat) : Nat :=
  let q := n / d
  let r := n % d
  if 2 * r < d then q
  else if d < 2 * r then q + 1
  else if q % 2 = 0 then q else q + 1

/-- Python `f"{v:.2f}"`: `some` rendering for numeric values (two decimals,
ties rounding to even on the exact rational; a float whose binary image is
inexact can round differently from the exact value), `none` models the
exception raised for non-numeric values. -/
def pyFormatF2 : Json → Option Str
  | Json.num q =>
    let mAbs : Nat := roundHalfEvenNat (q.num.natAbs * 100) q.den
    some ((if q.num < 0 then [('-' : Char)] else []) ++
      natStr (mAbs / 100) ++ pyS "." ++ pad2 (mAbs % 100))
  | Json.bool true => some (pyS "1.00")
  | Json.bool false => some (pyS "0.00")
  | Json.nan => some (pyS "nan")
  | Json.inf => some (pyS "inf")
  | Json.ninf => some (pyS "-inf")
  | _ => none

/-- Whether `f"{v:.2f}"` (or `f"{v:,.0f}"`) succeeds. -/
def fmtOk (j : Json) : Bool := (pyFormatF2 j).isSome

/-- Message of the exception raised by `f"{v:.2f}"` on a non-numeric value. -/
def fmtErrMsg (j : Json) : Str :=
  match j with
  | Json.str _ => pyS "Unknown format code 'f' for object of type 'str'"
  | _ => pyS "unsupported format string passed to " ++ typeName j ++ pyS ".__format__"

/-- Message of the exception raised by `f"{v:,.0f}"` on a non-numeric
value. -/
def fmtF0ErrMsg (j : Json) : Str :=
  match j with
  | Json.str _ => pyS "Cannot specify ',' with 's'."
  | _ => pyS "unsupported format string passed to " ++ typeName j ++ pyS ".__format__"

/-! ### Strict JSON parsing, modelling `json.loads` -/

/-- JSON whitespace accepted between tokens by `json.loads`. -/
def jsWS (c : Char) : Bool := c == ' ' || c == '\t' || c == '\n' || c == '\r'

/-- Skip JSON whitespace. -/
def skipWS (t : Str) : Str := t.dropWhile jsWS

/-- Hex digit value. -/
def hexVal (c : Char) : Option Nat :=
  if '0' ≤ c ∧ c ≤ '9' then some (c.toNat - '0'.toNat)
  else if 'a' ≤ c ∧ c ≤ 'f' then some (c.toNat - 'a'.toNat + 10)
  else if 'A' ≤ c ∧ c ≤ 'F' then some (c.toNat - 'A'.toNat + 10)
  else none

/-- Parse the body of a JSON string literal (after the opening quote),
returning the decoded characters and the remainder after the closing
quote.  Escape sequences follow the JSON grammar; unescaped control
characters are rejected (strict mode). -/
def parseStringLit : Nat → Str → Option (Str × Str)
  | 0, _ => none
  | _ + 1, [] => none
  | f + 1, c :: cs =>
    if c == '"' then some ([], cs)
    else if c == '\\' then
      match cs with
      | [] => none
      | e :: cs2 =>
        let cont := fun (ch : Char) (rest : Str) =>
          (parseStringLit f rest).map (fun p => (ch :: p.1, p.2))
        if e == '"' then cont '"' cs2
        else if e == '\\' then cont '\\' cs2
        else if e == '/' then cont '/' cs2
        else if e == 'b' then cont (Char.ofNat 8) cs2
        else if e == 'f' then cont (Char.ofNat 12) cs2
        else if e == 'n' then cont '\n' cs2
        else if e == 'r' then cont '\r' cs2
        else if e == 't' then cont '\t' cs2
        else if e == 'u' then
          match cs2 with
          | h1 :: h2 :: h3 :: h4 :: cs3 =>
            match hexVal h1, hexVal h2, hexVal h3, hexVal h4 with
            | some d1, some d2, some d3, some d4 =>
              cont (Char.ofNat (((d1 * 16 + d2) * 16 + d3) * 16 + d4)) cs3
            | _, _, _, _ => none
          | _ => none
        else none
    else if c.toNat < 32 then none
    else (parseStringLit f cs).map (fun p => (c :: p.1, p.2))
termination_by structural f _ => f

/-- Digits to a natural number. -/
def digitsToNat (ds : Str) : Nat :=
  ds.foldl (fun n c => n * 10 + (c.toNat - '0'.toNat)) 0

/-- Parse a JSON number per the `json.loads` grammar
`-?(0|[1-9][0-9]*)(\.[0-9]+)?([eE][+-]?[0-9]+)?`. -/
def parseNumber (t : Str) : Option (Rat × Str) :=
  let signed : Bool × Str :=
    match t with
    | c :: cs => if c == '-' then (true, cs) else (false, t)
    | [] => (false, t)
  let neg := signed.1
  let t1 := signed.2
  match t1 with
  | [] => none
  | c :: _ =>
    if !c.isDigit then none
    else
      let intPart : Str × Str :=
        if c == '0' then ([c], t1.tail)
        else (t1.takeWhile Char.isDigit, t1.dropWhile Char.isDigit)
      let i : Nat := digitsToNat intPart.1
      let afterInt := intPart.2
      let fracPart : Option (Nat × Nat) × Str :=
        match afterInt with
        | '.' :: r =>
          let ds := r.takeWhile Char.isDigit
          if ds.isEmpty then (none, afterInt)
          else (some (digitsToNat ds, ds.length), r.dropWhile Char.isDigit)
        | _ => (none, afterInt)
      match afterInt with
      | '.' :: r =>
        if (r.takeWhile Char.isDigit).isEmpty then none
        else
          parseExpPart neg i (fracPart.1.getD (0, 0)) fracPart.2
      | _ => parseExpPart neg i (0, 0) afterInt
where
  /-- Parse the optional exponent and assemble the rational value.  A bare
  integer is turned into a rational by a plain cast, so that concrete
  integer literals evaluate by reduction. -/
  parseExpPart (neg : Bool) (i : Nat) (frac : Nat × Nat) (t : Str) :
      Option (Rat × Str) :=
    let mkVal : Int → Rat := fun e =>
      if frac.2 == 0 ∧ e == 0 then
        (((if neg then -(i : Int) else (i : Int)) : Int) : Rat)
      else
        let base : Rat := (i : Rat) + (frac.1 : Rat) / ((10 : Rat) ^ frac.2)
        let v := base * (10 : Rat) ^ e
        if neg then -v else v
    match t with
    | 'e' :: r => parseExpDigits mkVal r
    | 'E' :: r => parseExpDigits mkVal r
    | _ => some (mkVal 0, t)
  /-- Exponent digits with optional sign. -/
  parseExpDigits (mkVal : Int → Rat) (r : Str) : Option (Rat × Str) :=
    let signed : Bool × Str :=
      match r with
      | '+' :: r2 => (false, r2)
      | '-' :: r2 => (true, r2)
      | _ => (false, r)
    let ds := signed.2.takeWhile Char.isDigit
    if ds.isEmpty then none
    else
      let e : Int := if signed.1 then -(digitsToNat ds : Int) else (digitsToNat ds : Int)
      some (mkVal e, signed.2.dropWhile Char.isDigit)

mutual
/-- Parse a JSON value (leading whitespace allowed), returning the value and
the unconsumed remainder. -/
def parseValue : Nat → Str → Option (Json × Str)
  | 0, _ => none
  | f + 1, t =>
    let t := skipWS t
    match t with
    | [] => none
    | c :: cs =>
      if c == '{' then
        match skipWS cs with
        | '}' :: r => some (Json.obj [], r)
        | _ => parseMembers f cs []
      else if c == '[' then
        match skipWS cs with
        | ']' :: r => some (Json.arr [], r)
        | _ => parseItems f cs []
      else if c == '"' then
        (parseStringLit (cs.length + 1) cs).map (fun p => (Json.str p.1, p.2))
      else if c == 't' then
        match cs with
        | 'r' :: 'u' :: 'e' :: r => some (Json.bool true, r)
        | _ => none
      else if c == 'f' then
        match cs with
        | 'a' :: 'l' :: 's' :: 'e' :: r => some (Json.bool false, r)
        | _ => none
      else if c == 'n' then
        match cs with
        | 'u' :: 'l' :: 'l' :: r => some (Json.null, r)
        | _ => none
      else if c == 'N' then
        match cs with
        | 'a' :: 'N' :: r => some (Json.nan, r)
        | _ => none
      else if c == 'I' then
        match cs with
        | 'n' :: 'f' :: 'i' :: 'n' :: 'i' :: 't' :: 'y' :: r => some (Json.inf, r)
        | _ => none
      else if c == '-' then
        match cs with
        | 'I' :: 'n' :: 'f' :: 'i' :: 'n' :: 'i' :: 't' :: 'y' :: r => some (Json.ninf, r)
        | _ => (parseNumber t).map (fun p => (Json.num p.1, p.2))
      else (parseNumber t).map (fun p => (Json.num p.1, p.2))
  termination_by structural f => f

/-- Parse the members of an object (after the opening brace, at least one
member), accumulating fields with dict-assignment semantics. -/
def parseMembers : Nat → Str → List (Str × Json) → Option (Json × Str)
  | 0, _, _ => none
  | f + 1, t, acc =>
    match skipWS t with
    | '"' :: cs =>
      match parseStringLit (cs.length + 1) cs with
      | none => none
      | some (key, r1) =>
        match skipWS r1 with
        | ':' :: r2 =>
          match parseValue f r2 with
          | none => none
          | some (v, r3) =>
            let acc2 := assocSet acc key v
            match skipWS r3 with
            | ',' :: r4 => parseMembers f r4 acc2
            | '}' :: r4 => some (Json.obj acc2, r4)
            | _ => none
        | _ => none
    | _ => none
  termination_by structural f => f

/-- Parse the items of an array (after the opening bracket, at least one
item). -/
def parseItems : Nat → Str → List Json → Option (Json × Str)
  | 0, _, _ => none
  | f + 1, t, acc =>
    match parseValue f t with
    | none => none
    | some (v, r1) =>
      let acc2 := acc ++ [v]
      match skipWS r1 with
      | ',' :: r2 => parseItems f r2 acc2
      | ']' :: r2 => some (Json.arr acc2, r2)
      | _ => none
  termination_by structural f => f
end

/-- Strict parsing of a whole text, modelling `json.loads`: a single value
with only whitespace around it. -/
def json_parse (t : Str) : Option Json :=
  match parseValue (t.length + 1) t with
  | some (v, r) => if (skipWS r).isEmpty then some v else none
  | none => none

/-! ### `clean_json_response` (identical in all three agent modules) -/

/-- The `re.search(r'\x7b.*\x7d', text, re.DOTALL)` step: if the text has a
`{` with some `}` after it, reduce it to the span from the first `{` to the
last `}` (greedy, spanning newlines); otherwise leave it unchanged. -/
def extractBraces (t : Str) : Str :=
  let r := t.dropWhile (fun c => c != '{')
  let m := (r.reverse.dropWhile (fun c => c != '}')).reverse
  if m.isEmpty then t else m

/-- The code-fence stripping step of `clean_json_response`: if the text
starts with three backticks, drop the first line when it starts with the
fence, drop the last line when it is a bare closing fence, and re-strip. -/
def fenceStrip (t : Str) : Str :=
  if pyStartsWith t (pyS "```") then
    let lines := pySplitNl t
    let lines := if pyStartsWith (lines.headD []) (pyS "```") then lines.tail else lines
    let lines :=
      if !lines.isEmpty && pyStrip (lines.getLastD []) == pyS "```" then lines.dropLast
      else lines
    pyStrip (pyJoinNl lines)
  else t

/-- `clean_json_response` from the agent modules: strip, remove a markdown
code fence, extract the first-`{`-to-last-`}` span. -/
def clean_json_response (t : Str) : Str :=
  extractBraces (fenceStrip (pyStrip t))

/-! ### Shared state, stage updates and the orchestrator -/

/-- An entry of the `messages` execution log. -/
structure Message where
  role : Str
  content : Str
deriving DecidableEq

/-- The `context` sub-dict of the analysis plan. -/
structure PlanContext where
  user_intent : Str
  time_sensitivity : Str
deriving DecidableEq

/-- The `analysis_plan` dict produced by the coordinator. -/
structure Plan where
  ticker : Str
  perform_financial_analysis : Bool
  perform_sentiment_analysis : Bool
  focus_areas : List Str
  context : PlanContext
deriving DecidableEq

/-- The shared `InvestmentState` (graph/state.py): all keys are present from
the initial state on; optional fields hold `none` for Python `None`. -/
structure IState where
  ticker : Str
  user_query : Str
  analysis_plan : Option Plan
  financial_analysis : Option Json
  sentiment_analysis : Option Json
  recommendation : Option Json
  confidence : Option Json
  reasoning : Option Json
  messages : List Message
  errors : List Str

/-- The mapping a stage returns.  A `some` scalar field models the key being
present in the returned dict; `messages`/`errors` hold the returned list for
the two `add`-reducer channels (absent key behaves like `[]`). -/
structure Update where
  ticker : Option Str := none
  user_query : Option Str := none
  analysis_plan : Option (Option Plan) := none
  financial_analysis : Option (Option Json) := none
  sentiment_analysis : Option (Option Json) := none
  recommendation : Option (Option Json) := none
  confidence : Option (Option Json) := none
  reasoning : Option (Option Json) := none
  messages : List Message := []
  errors : List Str := []

/-- The update corresponding to `return state`: every key of the shared
state is present in the returned dict with its current value. -/
def fullReturn (st : IState) : Update :=
  { ticker := some st.ticker
    user_query := some st.user_query
    analysis_plan := some st.analysis_plan
    financial_analysis := some st.financial_analysis
    sentiment_analysis := some st.sentiment_analysis
    recommendation := some st.recommendation
    confidence := some st.confidence
    reasoning := some st.reasoning
    messages := st.messages
    errors := st.errors }

/-- Modelled from the spec: application of a stage's returned mapping to the
shared state by the graph runtime (the LangGraph dependency, outside
`src/`).  Per `graph/state.py`, `messages` and `errors` are declared with
the `operator.add` reducer, so a returned list is concatenated onto the
channel; scalar keys take the returned value (spec section 5: "each stage
contributes its own delta; the orchestrator concatenates deltas"). -/
def mergeUpd (st : IState) (u : Update) : IState :=
  { ticker := u.ticker.getD st.ticker
    user_query := u.user_query.getD st.user_query
    analysis_plan := u.analysis_plan.getD st.analysis_plan
    financial_analysis := u.financial_analysis.getD st.financial_analysis
    sentiment_analysis := u.sentiment_analysis.getD st.sentiment_analysis
    recommendation := u.recommendation.getD st.recommendation
    confidence := u.confidence.getD st.confidence
    reasoning := u.reasoning.getD st.reasoning
    messages := st.messages ++ u.messages
    errors := st.errors ++ u.errors }

/-- Collaborator calls a stage can perform (market-data fetch, news fetch,
text-completion call). -/
inductive Call where
  | market
  | news
  | llm
deriving DecidableEq

/-- Result of `MarketDataMCP.fetch_data` as consumed by the financial agent:
the success flag, the `error` string of the failure dict, and the three data
bundles attached as `raw_data`. -/
structure MarketResult where
  success : Bool
  error : Str
  fundamentals : Json
  history : Json
  info : Json

/-- Result of `NewsMCP.fetch_data` as consumed by the sentiment agent. -/
structure NewsResult where
  success : Bool
  error : Str
  articles : List Json

/-- `MarketDataMCP.fetch_data` validates the ticker before touching the
external data source (mcps/market_data.py): an empty ticker raises
`ValueError("Ticker must be a non-empty string")`, which `handle_error`
turns into a failure dict.  A non-empty ticker yields whatever the external
collaborator returned (the oracle). -/
def marketFetch (ticker : Str) (oracle : MarketResult) : MarketResult :=
  if ticker.isEmpty then
    { success := false
      error := pyS "Ticker must be a non-empty string"
      fundamentals := Json.null
      history := Json.null
      info := Json.null }
  else oracle

/-- Responses of the three external collaborators for one pipeline run. -/
structure Oracles where
  market : MarketResult
  news : NewsResult
  finLLM : Str
  sentLLM : Str
  synthLLM : Str

/-! ### Coordinator agent (agents/coordinator.py) -/

/-- The planner's error entry for a missing ticker. -/
def errNoTicker : Str := pyS "No ticker provided"

def riskWords : List Str :=
  [pyS "risk", pyS "risky", pyS "safe", pyS "volatile", pyS "volatility"]

def fundamentalsWords : List Str :=
  [pyS "value", pyS "fundamental", pyS "earnings", pyS "revenue", pyS "profit"]

def technicalWords : List Str :=
  [pyS "price", pyS "trend", pyS "momentum", pyS "technical", pyS "chart"]

def newsWords : List Str :=
  [pyS "news", pyS "sentiment", pyS "recent", pyS "latest", pyS "happening"]

def buyWords : List Str :=
  [pyS "buy", pyS "invest", pyS "purchase", pyS "should i get"]

def sellWords : List Str :=
  [pyS "sell", pyS "exit", pyS "dump", pyS "get out"]

def holdWords : List Str :=
  [pyS "hold", pyS "keep", pyS "maintain", pyS "stay in"]

def urgentWords : List Str :=
  [pyS "today", pyS "now", pyS "urgent", pyS "immediate", pyS "asap",
   pyS "quick", pyS "right now"]

/-- `any(word in query_lower for word in words)`. -/
def keywordAny (ws : List Str) (q : Str) : Bool := ws.any (fun w => pyIn w q)

/-- `_determine_focus_areas` from coordinator.py: keyword matching in a fixed
order, defaulting to `comprehensive`. -/
def determine_focus_areas (uq : Str) : List Str :=
  let ql := pyLower uq
  let fa :=
    (if keywordAny riskWords ql then [pyS "risk_assessment"] else []) ++
    (if keywordAny fundamentalsWords ql then [pyS "fundamentals"] else []) ++
    (if keywordAny technicalWords ql then [pyS "technical"] else []) ++
    (if keywordAny newsWords ql then [pyS "news_sentiment"] else [])
  if fa.isEmpty then [pyS "comprehensive"] else fa

/-- `_classify_user_intent` from coordinator.py: first-match-wins scan. -/
def classify_user_intent (uq : Str) : Str :=
  let ql := pyLower uq
  if keywordAny buyWords ql then pyS "buy_decision"
  else if keywordAny sellWords ql then pyS "sell_decision"
  else if keywordAny holdWords ql then pyS "hold_decision"
  else pyS "research"

/-- `_assess_time_sensitivity` from coordinator.py. -/
def assess_time_sensitivity (uq : Str) : Str :=
  let ql := pyLower uq
  if keywordAny urgentWords ql then pyS "urgent" else pyS "normal"

/-- The coordinator's log message. -/
def coordMsg (tk uq : Str) : Message :=
  { role := pyS "coordinator"
    content := pyS "Planning analysis for " ++ tk ++ pyS ". Focus: " ++
      List.intercalate (pyS ", ") (determine_focus_areas uq) }

/-- `coordinator_agent`: validates the ticker; on failure appends an error
in place and returns the whole state, otherwise builds the plan and returns
a delta with the plan and one log message. -/
def coordinator_agent (st : IState) : Update :=
  let ticker := pyStrip (pyUpper st.ticker)
  if ticker.isEmpty then
    { fullReturn st with errors := st.errors ++ [errNoTicker] }
  else
    let plan : Plan :=
      { ticker := ticker
        perform_financial_analysis := true
        perform_sentiment_analysis := true
        focus_areas := determine_focus_areas st.user_query
        context :=
          { user_intent := classify_user_intent st.user_query
            time_sensitivity := assess_time_sensitivity st.user_query } }
    { analysis_plan := some (some plan)
      messages := [coordMsg ticker st.user_query] }

/-! ### Financial agent (agents/financial_agent.py) -/

/-- The fallback record built when the financial completion output fails
strict parsing (financial_agent.py lines 95-103). -/
def finFallback (raw : Str) : Json :=
  Json.obj
    [(pyS "fundamentals_summary", Json.str (raw.take 500)),
     (pyS "technical_summary", Json.str (pyS "See fundamentals summary")),
     (pyS "assessment", Json.str (raw.take 500)),
     (pyS "strengths", Json.arr []),
     (pyS "concerns", Json.arr []),
     (pyS "valuation", Json.str (pyS "Unknown")),
     (pyS "trend", Json.str (pyS "Unknown"))]

/-- The response-normalization step of the financial agent (lines 89-103):
clean, strictly parse, and fall back to the canned record on parse failure.
This is the spec's Response Normalizer instance for this stage. -/
def normalizeFinancial (raw : Str) : Json :=
  (json_parse (clean_json_response raw)).getD (finFallback raw)

/-- The financial agent's log message. -/
def finMsg (st : IState) : Message :=
  { role := pyS "financial_agent"
    content := pyS "Completed financial analysis for " ++ st.ticker }

/-- The exception (if any) raised while `_build_analysis_prompt` reads its
inputs (financial_agent.py lines 125-188): `.get` on a `None` plan, `.get`
on a non-dict `info`/`fundamentals`/`history` bundle, or the `:,.0f`
formatting of a non-numeric `market_cap`, checked in the evaluation order
of the source (the plan read precedes the f-string; within it the `info`
reads precede the `market_cap` format, which precedes the `fundamentals`
and `history` reads). -/
def finPromptRaise (fundamentals history info : Json) (plan : Option Plan) :
    Option Str :=
  match plan with
  | none => some (noGetErrMsg Json.null)
  | some _ =>
    match info with
    | Json.obj ifs =>
      let mcap := (assocFind ifs (pyS "market_cap")).getD (Json.num 0)
      if !fmtOk mcap then some (fmtF0ErrMsg mcap)
      else
        match fundamentals with
        | Json.obj _ =>
          match history with
          | Json.obj _ => none
          | _ => some (noGetErrMsg history)
        | _ => some (noGetErrMsg fundamentals)
    | _ => some (noGetErrMsg info)

/-- `financial_agent`: fetches market data, builds the prompt (whose input
reads can raise before the completion call, caught at the stage boundary
into an errors-only delta), invokes the completion collaborator, normalizes,
attaches `raw_data`, and returns a delta; on fetch failure appends an error
in place and returns the whole state; an uncaught exception (item
assignment on a non-dict) is converted to an `errors` delta. -/
def financial_agent (st : IState) (mkt : MarketResult) (llm : Str) :
    Update × List Call :=
  if !mkt.success then
    ({ fullReturn st with
       errors := st.errors ++ [pyS "Failed to fetch market data: " ++ mkt.error] },
     [Call.market])
  else
    match finPromptRaise mkt.fundamentals mkt.history mkt.info st.analysis_plan with
    | some msg =>
      ({ errors := st.errors ++ [pyS "Financial agent error: " ++ msg] },
       [Call.market])
    | none =>
      let analysis := normalizeFinancial llm
      let rawData := Json.obj
        [(pyS "fundamentals", mkt.fundamentals),
         (pyS "technical", mkt.history),
         (pyS "company_info", mkt.info)]
      match pySetField analysis (pyS "raw_data") rawData with
      | some analysis2 =>
        ({ financial_analysis := some (some analysis2), messages := [finMsg st] },
         [Call.market, Call.llm])
      | none =>
        ({ errors := st.errors ++
            [pyS "Financial agent error: " ++ itemAssignErrMsg analysis] },
         [Call.market, Call.llm])

/-! ### Sentiment agent (agents/sentiment_agent.py) -/

/-- The canned neutral record of the zero-article path (lines 79-87). -/
def neutralSentiment : Json :=
  Json.obj
    [(pyS "sentiment_score", Json.num (1/2)),
     (pyS "article_count", Json.num 0),
     (pyS "key_themes", Json.arr []),
     (pyS "overall_mood", Json.str (pyS "Neutral")),
     (pyS "concerns", Json.arr [Json.str (pyS "No recent news coverage found")]),
     (pyS "catalysts", Json.arr []),
     (pyS "summary", Json.str (pyS "Insufficient news data to determine sentiment"))]

/-- The sentiment fallback record on parse failure (lines 119-127); it keeps
the true article count. -/
def sentFallback (total : Nat) (raw : Str) : Json :=
  Json.obj
    [(pyS "sentiment_score", Json.num (1/2)),
     (pyS "article_count", Json.num total),
     (pyS "key_themes", Json.arr []),
     (pyS "overall_mood", Json.str (pyS "Neutral")),
     (pyS "concerns", Json.arr []),
     (pyS "catalysts", Json.arr []),
     (pyS "summary", Json.str (raw.take 500))]

/-- Python `str()` as used inside f-strings, for values embedded in log
messages.  Exact for strings, `None` and booleans (the cases the theorems
exercise); numeric and container renderings are simplified. -/
def pyStrOf : Json → Str
  | Json.str s => s
  | Json.null => pyS "None"
  | Json.bool true => pyS "True"
  | Json.bool false => pyS "False"
  | Json.num q => if q.den == 1 then intStr q.num else intStr q.num ++ pyS "/" ++ natStr q.den
  | Json.arr _ => pyS "[...]"
  | Json.obj _ => pyS "\x7b...\x7d"
  | Json.nan => pyS "nan"
  | Json.inf => pyS "inf"
  | Json.ninf => pyS "-inf"

/-- The zero-article log message. -/
def noNewsMsg (st : IState) : Message :=
  { role := pyS "sentiment_agent"
    content := pyS "No news articles found for " ++ st.ticker }

/-- The sentiment agent's success log message (built from the post-processed
record). -/
def sentMsg (st : IState) (total : Nat) (a : Json) : Message :=
  { role := pyS "sentiment_agent"
    content := pyS "Analyzed " ++ natStr total ++ pyS " articles for " ++
      st.ticker ++ pyS ". Mood: " ++
      pyStrOf ((jFind a (pyS "overall_mood")).getD (Json.str (pyS "Unknown"))) }

/-- The company-name read the sentiment agent performs before its `try`
block (lines 56-60).  Returns `none` when the chained `.get` calls would
raise (a truthy non-dict on the chain) — such an exception escapes the
stage. -/
def companyNameRead (fa : Option Json) : Option (Option Json) :=
  match fa with
  | none => some none
  | some j =>
    if pyTruthy j then
      match j with
      | Json.obj fs =>
        match (assocFind fs (pyS "raw_data")).getD (Json.obj []) with
        | Json.obj rfs =>
          match (assocFind rfs (pyS "company_info")).getD (Json.obj []) with
          | Json.obj cfs => some (assocFind cfs (pyS "company_name"))
          | _ => none
        | _ => none
      | _ => none
    else some none

/-- The exception (if any) raised while `_build_sentiment_prompt` reads its
inputs (sentiment_agent.py lines 148-206): `.get` on a non-dict article
among the first 20 (in order), then `.get` on a `None` plan (the article
formatting at lines 165-172 precedes the plan read at line 174). -/
def sentPromptRaise (articles : List Json) (plan : Option Plan) : Option Str :=
  match (articles.take 20).find? (fun a => !a.isObj) with
  | some bad => some (noGetErrMsg bad)
  | none =>
    match plan with
    | none => some (noGetErrMsg Json.null)
    | some _ => none

/-- `sentiment_agent`: reads the optional company name (may raise, hence the
outer `Option`), fetches news, short-circuits on zero articles with the
canned neutral record, otherwise builds the prompt (whose input reads can
raise before the completion call, caught into an errors-only delta),
invokes the completion collaborator, normalizes, overwrites `article_count`
with the true count and attaches up to 5 sample articles. -/
def sentiment_agent (st : IState) (news : NewsResult) (llm : Str) :
    Option (Update × List Call) :=
  match companyNameRead st.financial_analysis with
  | none => none
  | some _ =>
    some (
      if !news.success then
        ({ fullReturn st with
           errors := st.errors ++ [pyS "Failed to fetch news: " ++ news.error] },
         [Call.news])
      else
        let articles := news.articles
        let total := articles.length
        if total = 0 then
          ({ fullReturn st with
             sentiment_analysis := some (some neutralSentiment)
             messages := st.messages ++ [noNewsMsg st] },
           [Call.news])
        else
          match sentPromptRaise articles st.analysis_plan with
          | some msg =>
            ({ errors := st.errors ++ [pyS "Sentiment agent error: " ++ msg] },
             [Call.news])
          | none =>
            let analysis := (json_parse (clean_json_response llm)).getD (sentFallback total llm)
            match pySetField analysis (pyS "article_count") (Json.num total) with
            | none =>
              ({ errors := st.errors ++
                  [pyS "Sentiment agent error: " ++ itemAssignErrMsg analysis] },
               [Call.news, Call.llm])
            | some a1 =>
              match pySetField a1 (pyS "sample_articles") (Json.arr (articles.take 5)) with
              | none =>
                ({ errors := st.errors ++
                    [pyS "Sentiment agent error: " ++ itemAssignErrMsg a1] },
                 [Call.news, Call.llm])
              | some a2 =>
                ({ sentiment_analysis := some (some a2)
                   messages := [sentMsg st total a2] },
                 [Call.news, Call.llm]))

/-! ### Synthesizer agent (agents/synthesizer.py) -/

/-- The synthesizer's precondition error entry (line 60). -/
def errMissingSynth : Str := pyS "Missing required analysis data for synthesis"

/-- Whether a value survives `v[:5]` slicing plus string-joining over its
items (lists and strings do; other types raise). -/
def sliceJoinOk : Json → Bool
  | Json.arr _ => true
  | Json.str _ => true
  | _ => false

/-- Message of the `TypeError` raised by slicing a non-sequence. -/
def subscriptErrMsg (j : Json) : Str :=
  pyS "'" ++ typeName j ++ pyS "' object is not subscriptable"

/-- The exception (if any) raised while `_build_synthesis_prompt` reads its
inputs: `.get` on a non-dict analysis or on a `None` plan, slicing
non-sequence list fields, or formatting a non-numeric sentiment score, in
the evaluation order of the source. -/
def synthPromptRaise (fin sent : Json) (plan : Option Plan) : Option Str :=
  match fin with
  | Json.obj ffs =>
    match sent with
    | Json.obj sfs =>
      match plan with
      | none => some (noGetErrMsg Json.null)
      | some _ =>
        let strengths := (assocFind ffs (pyS "strengths")).getD (Json.arr [])
        let fconcerns := (assocFind ffs (pyS "concerns")).getD (Json.arr [])
        let score := (assocFind sfs (pyS "sentiment_score")).getD (Json.num (1/2))
        let themes := (assocFind sfs (pyS "key_themes")).getD (Json.arr [])
        let catalysts := (assocFind sfs (pyS "catalysts")).getD (Json.arr [])
        let sconcerns := (assocFind sfs (pyS "concerns")).getD (Json.arr [])
        if !sliceJoinOk strengths then some (subscriptErrMsg strengths)
        else if !sliceJoinOk fconcerns then some (subscriptErrMsg fconcerns)
        else if !fmtOk score then some (fmtErrMsg score)
        else if !sliceJoinOk themes then some (subscriptErrMsg themes)
        else if !sliceJoinOk catalysts then some (subscriptErrMsg catalysts)
        else if !sliceJoinOk sconcerns then some (subscriptErrMsg sconcerns)
        else none
    | _ => some (noGetErrMsg sent)
  | _ => some (noGetErrMsg fin)

/-- The synthesizer fallback record on parse failure (lines 94-103). -/
def synthFallback (raw : Str) : Json :=
  Json.obj
    [(pyS "action", Json.str (pyS "HOLD")),
     (pyS "confidence", Json.num (1/2)),
     (pyS "reasoning", Json.str (raw.take 1000)),
     (pyS "risk_level", Json.str (pyS "Medium")),
     (pyS "time_horizon", Json.str (pyS "Medium-term (3-12 months)")),
     (pyS "key_factors", Json.arr []),
     (pyS "entry_strategy", Json.str (pyS "Consult with a financial advisor")),
     (pyS "watch_for", Json.arr [])]

/-- The synthesizer's success log message (lines 111-116). -/
def synthMsg (st : IState) (recJ : Json) : Message :=
  { role := pyS "synthesizer"
    content := pyS "Final recommendation for " ++ st.ticker ++ pyS ": " ++
      pyStrOf ((jFind recJ (pyS "action")).getD (Json.str (pyS "UNKNOWN"))) ++
      pyS " (confidence: " ++
      ((pyFormatF2 ((jFind recJ (pyS "confidence")).getD (Json.num 0))).getD []) ++
      pyS ")" }

/-- The part of the synthesizer after the parsed (or fallback) recommendation
exists: `state["recommendation"]` etc. are assigned, then the log message is
formatted; the `.get` chain and the `:.2f` formatting can raise, in which
case the already performed assignments survive in the returned state and a
`Synthesizer error` entry is appended instead of the message. -/
def synthAfterParse (st : IState) (recJ : Json) : Update × List Call :=
  match recJ with
  | Json.obj fs =>
    let conf := (assocFind fs (pyS "confidence")).getD (Json.num (1/2))
    let reas := (assocFind fs (pyS "reasoning")).getD (Json.str [])
    let conf2 := (assocFind fs (pyS "confidence")).getD (Json.num 0)
    match pyFormatF2 conf2 with
    | some _ =>
      ({ fullReturn st with
         recommendation := some (some recJ)
         confidence := some (some conf)
         reasoning := some (some reas)
         messages := st.messages ++ [synthMsg st recJ]
         errors := st.errors },
       [Call.llm])
    | none =>
      ({ fullReturn st with
         recommendation := some (some recJ)
         confidence := some (some conf)
         reasoning := some (some reas)
         errors := st.errors ++ [pyS "Synthesizer error: " ++ fmtErrMsg conf2]
         messages := st.messages },
       [Call.llm])
  | _ =>
    ({ fullReturn st with
       recommendation := some (some recJ)
       errors := st.errors ++ [pyS "Synthesizer error: " ++ noGetErrMsg recJ]
       messages := st.messages },
     [Call.llm])

/-- `synthesizer_agent`: requires both analyses truthy, otherwise appends
the missing-data error and returns the whole state; builds the prompt
(whose input reads can raise before the completion call), invokes the
completion collaborator, normalizes with the HOLD fallback, and denormalizes
`confidence`/`reasoning` into the state. -/
def synthesizer_agent (st : IState) (llm : Str) : Update × List Call :=
  if !(pyTruthyOpt st.financial_analysis && pyTruthyOpt st.sentiment_analysis) then
    ({ fullReturn st with errors := st.errors ++ [errMissingSynth] }, [])
  else
    let finJ := st.financial_analysis.getD Json.null
    let sentJ := st.sentiment_analysis.getD Json.null
    match synthPromptRaise finJ sentJ st.analysis_plan with
    | some msg =>
      ({ fullReturn st with errors := st.errors ++ [pyS "Synthesizer error: " ++ msg] },
       [])
    | none =>
      synthAfterParse st ((json_parse (clean_json_response llm)).getD (synthFallback llm))

/-! ### The orchestrated pipeline (graph/workflow.py, main.py) -/

/-- The initial state built by `run_analysis` (main.py lines 26-48): the
ticker is upper-cased, a default query is substituted for an empty one, all
optional fields are `None` and both log lists are empty. -/
def initialState (ticker uq : Str) : IState :=
  { ticker := pyUpper ticker
    user_query := if uq.isEmpty then pyS "Should I invest in " ++ ticker ++ pyS "?" else uq
    analysis_plan := none
    financial_analysis := none
    sentiment_analysis := none
    recommendation := none
    confidence := none
    reasoning := none
    messages := []
    errors := [] }

/-- Modelled from the spec: one full run of the compiled graph
(coordinator → financial → sentiment → synthesizer) under the sequential
scheduling that spec section 5 declares conformant, applying each stage's
returned mapping through `mergeUpd`.  Returns the final state and the
concatenated collaborator-call trace, or `none` if a stage raised outside
its error handling. -/
def runPipeline (ticker uq : Str) (o : Oracles) : Option (IState × List Call) :=
  let s0 := initialState ticker uq
  let s1 := mergeUpd s0 (coordinator_agent s0)
  let fin := financial_agent s1 (marketFetch s1.ticker o.market) o.finLLM
  let s2 := mergeUpd s1 fin.1
  match sentiment_agent s2 o.news o.sentLLM with
  | none => none
  | some sent =>
    let s3 := mergeUpd s2 sent.1
    let syn := synthesizer_agent s3 o.synthLLM
    some (mergeUpd s3 syn.1, fin.2 ++ sent.2 ++ syn.2)

/-! ### Helper lemmas -/

theorem dropWhile_eq_nil_of_all {p : Char → Bool} {l : Str}
    (h : ∀ c ∈ l, p c = true) : l.dropWhile p = [] := by
  induction l with
  | nil => rfl
  | cons a t ih =>
    have ha : p a = true := h a (List.mem_cons_self a t)
    simp only [List.dropWhile_cons, ha, if_true]
    exact ih (fun c hc => h c (List.mem_cons_of_mem a hc))

theorem dropWhile_append_of_all {p : Char → Bool} {a l : Str}
    (h : ∀ c ∈ a, p c = true) : (a ++ l).dropWhile p = l.dropWhile p := by
  induction a with
  | nil => rfl
  | cons x t ih =>
    have hx : p x = true := h x (List.mem_cons_self x t)
    simp only [List.cons_append, List.dropWhile_cons, hx, if_true]
    exact ih (fun c hc => h c (List.mem_cons_of_mem x hc))

theorem toUpper_of_space {c : Char} (h : pyIsSpace c = true) : c.toUpper = c := by
  simp only [pyIsSpace, Bool.or_eq_true, beq_iff_eq] at h
  rcases h with ((((h | h) | h) | h) | h) | h <;> subst h <;> decide

theorem pyUpper_of_all_space {l : Str} (h : ∀ c ∈ l, pyIsSpace c = true) :
    pyUpper l = l := by
  unfold pyUpper
  induction l with
  | nil => rfl
  | cons a t ih =>
    have := toUpper_of_space (h a (List.mem_cons_self a t))
    simp only [List.map_cons, this, List.cons.injEq, true_and]
    exact ih (fun c hc => h c (List.mem_cons_of_mem a hc))

theorem pyStrip_of_all_space {l : Str} (h : ∀ c ∈ l, pyIsSpace c = true) :
    pyStrip l = [] := by
  unfold pyStrip
  rw [dropWhile_eq_nil_of_all h]
  rfl

theorem isObj_iff {j : Json} : j.isObj = true ↔ ∃ fs, j = Json.obj fs := by
  cases j
  case obj fs => exact iff_of_true rfl ⟨fs, rfl⟩
  all_goals
    exact iff_of_false (by simp [Json.isObj]) (by rintro ⟨fs, h⟩; cases h)

theorem pyIn_iff {w q : Str} : pyIn w q = true ↔ w <:+: q := by
  simp [pyIn]

/-! ### Claim theorems -/

/-- Claim C8: for every empty or whitespace-only ticker input, the planner
stage run on the initial state produces no `analysis_plan` and leaves the
state unchanged except for exactly one new `errors` entry. -/
theorem planner_empty_ticker_single_error (tk uq : Str)
    (h : ∀ c ∈ tk, pyIsSpace c = true) :
    mergeUpd (initialState tk uq) (coordinator_agent (initialState tk uq)) =
      { initialState tk uq with errors := [errNoTicker] } := by
  have hup : pyUpper (initialState tk uq).ticker = tk := by
    show pyUpper (pyUpper tk) = tk
    rw [pyUpper_of_all_space h, pyUpper_of_all_space h]
  have hcond : (pyStrip (pyUpper (initialState tk uq).ticker)).isEmpty = true := by
    rw [hup, pyStrip_of_all_space h]
    rfl
  unfold coordinator_agent
  simp only [hcond, if_true]
  simp [mergeUpd, fullReturn, initialState]

/-- Claim C8 witness: the whitespace-only ticker `" \t"`. -/
theorem planner_empty_ticker_single_error_witness :
    (∀ c ∈ pyS " \t", pyIsSpace c = true) ∧
    mergeUpd (initialState (pyS " \t") (pyS "hi"))
        (coordinator_agent (initialState (pyS " \t") (pyS "hi"))) =
      { initialState (pyS " \t") (pyS "hi") with errors := [errNoTicker] } :=
  ⟨by decide, planner_empty_ticker_single_error (pyS " \t") (pyS "hi") (by decide)⟩

theorem keywordAny_of_mem {w : Str} {ws : List Str} {q : Str}
    (hm : w ∈ ws) (h : pyIn w q = true) : keywordAny ws q = true :=
  List.any_eq_true.mpr ⟨w, hm, h⟩

theorem pyIn_trans {u w q : Str} (h1 : pyIn u w = true) (h2 : w <:+: q) :
    pyIn u q = true :=
  pyIn_iff.mpr ((pyIn_iff.mp h1).trans h2)

/-- Claim C9 (amended): for any user query containing the text
"is TSLA risky right now", the planner's focus areas include
`risk_assessment` and the urgency is `urgent`; the intent is `research`
provided no buy/sell/hold keyword occurs in the query (which holds for the
exact query). -/
theorem planner_tsla_risky_query (q : Str)
    (h : pyIn (pyS "is TSLA risky right now") q = true) :
    pyS "risk_assessment" ∈ determine_focus_areas q ∧
    assess_time_sensitivity q = pyS "urgent" ∧
    (keywordAny buyWords (pyLower q) = false →
     keywordAny sellWords (pyLower q) = false →
     keywordAny holdWords (pyLower q) = false →
     classify_user_intent q = pyS "research") := by
  have hl : pyLower (pyS "is TSLA risky right now") <:+: pyLower q :=
    (pyIn_iff.mp h).map Char.toLower
  have hrisk : keywordAny riskWords (pyLower q) = true :=
    keywordAny_of_mem (by decide) (pyIn_trans (u := pyS "risk") (by decide) hl)
  have hnow : keywordAny urgentWords (pyLower q) = true :=
    keywordAny_of_mem (w := pyS "now") (by decide) (pyIn_trans (by decide) hl)
  refine ⟨?_, ?_, ?_⟩
  · unfold determine_focus_areas
    simp only [hrisk, if_true]
    exact List.mem_cons_self _ _
  · unfold assess_time_sensitivity
    simp only [hnow, if_true]
  · intro hb hs hh
    unfold classify_user_intent
    simp [hb, hs, hh]

/-- Claim C9 counterexample: a query containing the text but also the buy
keyword is classified `buy_decision`, not `research`, refuting the claim's
intent clause for arbitrary containing queries. -/
theorem planner_tsla_risky_query_counterexample :
    pyIn (pyS "is TSLA risky right now") (pyS "buy? is TSLA risky right now") = true ∧
    classify_user_intent (pyS "buy? is TSLA risky right now") = pyS "buy_decision" ∧
    pyS "buy_decision" ≠ pyS "research" :=
  ⟨by decide, by decide, by decide⟩

/-- Claim C9 witness: the exact query satisfies every hypothesis, giving
risk focus, urgency and the research intent. -/
theorem planner_tsla_risky_query_witness :
    pyIn (pyS "is TSLA risky right now") (pyS "is TSLA risky right now") = true ∧
    pyS "risk_assessment" ∈ determine_focus_areas (pyS "is TSLA risky right now") ∧
    assess_time_sensitivity (pyS "is TSLA risky right now") = pyS "urgent" ∧
    classify_user_intent (pyS "is TSLA risky right now") = pyS "research" :=
  ⟨by decide,
   (planner_tsla_risky_query _ (by decide)).1,
   (planner_tsla_risky_query _ (by decide)).2.1,
   (planner_tsla_risky_query _ (by decide)).2.2 (by decide) (by decide) (by decide)⟩

/-- Prose without braces (so the regex span isolates the embedded object). -/
abbrev noBraces (l : Str) : Prop := '{' ∉ l ∧ '}' ∉ l

theorem bne_true_of_ne {c d : Char} (h : c ≠ d) : (c != d) = true := by
  simpa using h

theorem extractBraces_embedded {a s b : Str} (ha : noBraces a) (hb : noBraces b)
    (hh : s.head? = some '{') (hl : s.getLast? = some '}') :
    extractBraces (a ++ s ++ b) = s := by
  cases s with
  | nil => cases hh
  | cons c t =>
  have hc : c = '{' := by simpa using hh
  subst hc
  have hallA : ∀ x ∈ a, (x != '{') = true := by
    intro x hx
    exact bne_true_of_ne (fun e => ha.1 (e ▸ hx))
  have hr : (a ++ ('{' :: t) ++ b).dropWhile (fun c => c != '{') = '{' :: (t ++ b) := by
    rw [List.append_assoc, dropWhile_append_of_all hallA]
    simp [List.dropWhile_cons]
  have hrev0 : ('{' :: t).reverse.head? = some '}' := by
    rw [List.head?_reverse]; exact hl
  rcases hrevEq : ('{' :: t).reverse with _ | ⟨d, w⟩
  · rw [hrevEq] at hrev0; cases hrev0
  have hd : d = '}' := by rw [hrevEq] at hrev0; simpa using hrev0
  subst hd
  have hallB : ∀ x ∈ b.reverse, (x != '}') = true := by
    intro x hx
    exact bne_true_of_ne (fun e => hb.2 (e ▸ List.mem_reverse.mp hx))
  have hm : ((('{' :: (t ++ b)).reverse).dropWhile (fun c => c != '}')).reverse
      = '{' :: t := by
    have hsplit : ('{' :: (t ++ b)) = ('{' :: t) ++ b := by simp
    rw [hsplit, List.reverse_append, dropWhile_append_of_all hallB, hrevEq]
    have hne : (('}' : Char) != '}') = false := by decide
    simp only [List.dropWhile_cons, hne, Bool.false_eq_true, if_false]
    rw [← hrevEq, List.reverse_reverse]
  unfold extractBraces
  simp only [hr, hm]
  rfl

/-- The seven fields the financial stage's schema requires. -/
def requiredFinKeys : List Str :=
  [pyS "fundamentals_summary", pyS "technical_summary", pyS "assessment",
   pyS "strengths", pyS "concerns", pyS "valuation", pyS "trend"]

/-- Claim C4 (amended): the response normalizer is total and never raises;
on strict-parse failure it returns the stage's well-formed fallback record
(with all seven required fields); on parse success it returns the parsed
value as-is — which need not be a record (see the counterexample).  And for
every input whose trimming and fence-stripping leaves a single well-formed
JSON object surrounded by brace-free prose, cleaning reduces the text to
exactly the embedded object and strict parsing recovers it. -/
theorem response_normalizer_roundtrip :
    (∀ raw, json_parse (clean_json_response raw) = none →
      normalizeFinancial raw = finFallback raw ∧
      (finFallback raw).isObj = true ∧
      (requiredFinKeys.all fun k => (jFind (finFallback raw) k).isSome) = true) ∧
    (∀ raw v, json_parse (clean_json_response raw) = some v →
      normalizeFinancial raw = v) ∧
    (∀ t a s b v, noBraces a → noBraces b →
      s.head? = some '{' → s.getLast? = some '}' →
      fenceStrip (pyStrip t) = a ++ s ++ b → json_parse s = some v →
      clean_json_response t = s ∧ json_parse (clean_json_response t) = some v) := by
  refine ⟨?_, ?_, ?_⟩
  · intro raw h
    refine ⟨?_, rfl, rfl⟩
    unfold normalizeFinancial
    rw [h]
    rfl
  · intro raw v h
    unfold normalizeFinancial
    rw [h]
    rfl
  · intro t a s b v ha hb hh hl hfs hp
    have hclean : clean_json_response t = s := by
      unfold clean_json_response
      rw [hfs]
      exact extractBraces_embedded ha hb hh hl
    exact ⟨hclean, by rw [hclean]; exact hp⟩

/-- Claim C4 counterexample: on the raw completion text `42` the normalizer
parses successfully and returns the bare number — not a well-formed
record. -/
theorem response_normalizer_counterexample :
    normalizeFinancial (pyS "42") = Json.num 42 ∧
    (Json.num 42).isObj = false :=
  ⟨rfl, rfl⟩

/-- Claim C4 witness: an object preceded by prose round-trips, a fenced
object round-trips through the fence-stripping route, and a non-JSON text
falls back to the well-formed record. -/
theorem response_normalizer_roundtrip_witness :
    (noBraces (pyS "Sure:\n```json\n") ∧ noBraces (pyS "\n```\nok") ∧
     fenceStrip (pyStrip (pyS "Sure:\n```json\n\x7b\"a\": 1\x7d\n```\nok")) =
       pyS "Sure:\n```json\n" ++ pyS "\x7b\"a\": 1\x7d" ++ pyS "\n```\nok" ∧
     json_parse (pyS "\x7b\"a\": 1\x7d") = some (Json.obj [(pyS "a", Json.num 1)]) ∧
     clean_json_response (pyS "Sure:\n```json\n\x7b\"a\": 1\x7d\n```\nok") = pyS "\x7b\"a\": 1\x7d" ∧
     json_parse (clean_json_response (pyS "Sure:\n```json\n\x7b\"a\": 1\x7d\n```\nok")) =
       some (Json.obj [(pyS "a", Json.num 1)])) ∧
    (fenceStrip (pyStrip (pyS "```json\n\x7b\"a\": 1\x7d\n```")) =
       [] ++ pyS "\x7b\"a\": 1\x7d" ++ [] ∧
     clean_json_response (pyS "```json\n\x7b\"a\": 1\x7d\n```") = pyS "\x7b\"a\": 1\x7d" ∧
     json_parse (clean_json_response (pyS "```json\n\x7b\"a\": 1\x7d\n```")) =
       some (Json.obj [(pyS "a", Json.num 1)])) ∧
    (json_parse (clean_json_response (pyS "no json here")) = none ∧
     normalizeFinancial (pyS "no json here") = finFallback (pyS "no json here")) := by
  refine ⟨⟨by decide, by decide, by rfl, by rfl, ?_⟩, ⟨by rfl, ?_⟩, by rfl, ?_⟩
  · exact (response_normalizer_roundtrip.2.2
      (pyS "Sure:\n```json\n\x7b\"a\": 1\x7d\n```\nok")
      (pyS "Sure:\n```json\n") (pyS "\x7b\"a\": 1\x7d") (pyS "\n```\nok")
      (Json.obj [(pyS "a", Json.num 1)])
      (by decide) (by decide) (by rfl) (by rfl) (by rfl) (by rfl))
  · exact (response_normalizer_roundtrip.2.2
      (pyS "```json\n\x7b\"a\": 1\x7d\n```")
      [] (pyS "\x7b\"a\": 1\x7d") []
      (Json.obj [(pyS "a", Json.num 1)])
      (by decide) (by decide) (by rfl) (by rfl) (by rfl) (by rfl))
  · exact ((response_normalizer_roundtrip.1 (pyS "no json here") (by rfl)).1)

theorem assocFind_set_same (fs : List (Str × Json)) (k : Str) (v : Json) :
    assocFind (assocSet fs k v) k = some v := by
  induction fs with
  | nil => simp [assocSet, assocFind]
  | cons p t ih =>
    obtain ⟨k0, v0⟩ := p
    by_cases h : k0 = k
    · subst h; simp [assocSet, assocFind]
    · simp [assocSet, assocFind, h, ih]

theorem assocFind_set_ne (fs : List (Str × Json)) (k k' : Str) (v : Json)
    (h : k ≠ k') : assocFind (assocSet fs k v) k' = assocFind fs k' := by
  induction fs with
  | nil => simp [assocSet, assocFind, h]
  | cons p t ih =>
    obtain ⟨k0, v0⟩ := p
    by_cases h0 : k0 = k
    · subst h0; simp [assocSet, assocFind, h]
    · by_cases h1 : k0 = k'
      · subst h1; simp [assocSet, assocFind, h0]
      · simp [assocSet, assocFind, h0, h1, ih]

/-- Claim C5: on a successful news fetch with zero articles the sentiment
stage performs only the news-fetch call (never the completion call), writes
the canned neutral record (`sentiment_score = 0.5`, mood `Neutral`,
`article_count = 0`, a no-coverage concern) and appends its own distinct
log message. -/
theorem sentiment_zero_articles (st : IState) (news : NewsResult) (llm : Str)
    (hwf : (companyNameRead st.financial_analysis).isSome = true)
    (hs : news.success = true) (h0 : news.articles = []) :
    sentiment_agent st news llm =
      some ({ fullReturn st with
              sentiment_analysis := some (some neutralSentiment)
              messages := st.messages ++ [noNewsMsg st] }, [Call.news]) ∧
    jFind neutralSentiment (pyS "sentiment_score") = some (Json.num (1/2)) ∧
    jFind neutralSentiment (pyS "overall_mood") = some (Json.str (pyS "Neutral")) ∧
    jFind neutralSentiment (pyS "article_count") = some (Json.num 0) ∧
    jFind neutralSentiment (pyS "concerns") =
      some (Json.arr [Json.str (pyS "No recent news coverage found")]) ∧
    Call.llm ∉ [Call.news] := by
  obtain ⟨cn, hcn⟩ := Option.isSome_iff_exists.mp hwf
  refine ⟨?_, rfl, rfl, rfl, rfl, by decide⟩
  unfold sentiment_agent
  rw [hcn, h0]
  simp [hs]

/-- Claim C5 witness: the initial state with a successful empty fetch. -/
theorem sentiment_zero_articles_witness :
    ((companyNameRead (initialState (pyS "N") (pyS "q")).financial_analysis).isSome = true) ∧
    (sentiment_agent (initialState (pyS "N") (pyS "q"))
        { success := true, error := [], articles := [] } [] =
      some ({ fullReturn (initialState (pyS "N") (pyS "q")) with
              sentiment_analysis := some (some neutralSentiment)
              messages := (initialState (pyS "N") (pyS "q")).messages ++
                [noNewsMsg (initialState (pyS "N") (pyS "q"))] }, [Call.news])) :=
  ⟨rfl,
   (sentiment_zero_articles (initialState (pyS "N") (pyS "q"))
      { success := true, error := [], articles := [] } [] rfl rfl rfl).1⟩

/-- Claim C6: on a successful non-zero fetch, whenever the sentiment stage
produces an output record its `article_count` equals the true fetched count
(whatever count the completion output claimed) and its `sample_articles`
are the first at-most-5 fetched articles verbatim. -/
theorem sentiment_true_article_count (st : IState) (news : NewsResult) (llm : Str)
    (hwf : (companyNameRead st.financial_analysis).isSome = true)
    (hs : news.success = true) (h0 : news.articles ≠ [])
    (hpr : sentPromptRaise news.articles st.analysis_plan = none)
    (hobj : ((json_parse (clean_json_response llm)).getD
        (sentFallback news.articles.length llm)).isObj = true) :
    ∃ a, sentiment_agent st news llm =
        some ({ sentiment_analysis := some (some a)
                messages := [sentMsg st news.articles.length a] },
              [Call.news, Call.llm]) ∧
      jFind a (pyS "article_count") = some (Json.num news.articles.length) ∧
      jFind a (pyS "sample_articles") = some (Json.arr (news.articles.take 5)) ∧
      (news.articles.take 5).length ≤ 5 ∧
      news.articles.take 5 <+: news.articles := by
  obtain ⟨cn, hcn⟩ := Option.isSome_iff_exists.mp hwf
  obtain ⟨fs, hfs⟩ := isObj_iff.mp hobj
  have hlen : ¬ (news.articles.length = 0) := by
    simpa [List.length_eq_zero] using h0
  refine ⟨Json.obj (assocSet
      (assocSet fs (pyS "article_count") (Json.num news.articles.length))
      (pyS "sample_articles") (Json.arr (news.articles.take 5))), ?_, ?_, ?_, ?_, ?_⟩
  · unfold sentiment_agent
    rw [hcn]
    simp only [hs, Bool.not_true, Bool.false_eq_true, if_false, hfs,
      hlen, hpr, if_false, pySetField]
  · show assocFind _ _ = _
    rw [assocFind_set_ne _ _ _ _ (by decide), assocFind_set_same]
  · exact assocFind_set_same _ _ _
  · exact List.length_take_le 5 news.articles
  · exact List.take_prefix 5 news.articles

/-- A plan as the coordinator would produce for ticker `N`. -/
def planFix : Plan :=
  { ticker := pyS "N", perform_financial_analysis := true
    perform_sentiment_analysis := true, focus_areas := [pyS "comprehensive"]
    context := { user_intent := pyS "research", time_sensitivity := pyS "normal" } }

/-- A state in which both analyses and the plan are present, ready for the
synthesis stage. -/
def stSynth : IState :=
  { ticker := pyS "N", user_query := pyS "q", analysis_plan := some planFix
    financial_analysis := some (Json.obj [(pyS "assessment", Json.str (pyS "ok"))])
    sentiment_analysis := some (Json.obj [(pyS "overall_mood", Json.str (pyS "B"))])
    recommendation := none, confidence := none, reasoning := none
    messages := [], errors := [] }

/-- A fetch of five article dicts, for exercising the sentiment stage. -/
def newsFive : NewsResult :=
  { success := true, error := []
    articles := [Json.obj [(pyS "title", Json.str (pyS "t1"))],
                 Json.obj [(pyS "title", Json.str (pyS "t2"))],
                 Json.obj [(pyS "title", Json.str (pyS "t3"))],
                 Json.obj [(pyS "title", Json.str (pyS "t4"))],
                 Json.obj [(pyS "title", Json.str (pyS "t5"))]] }

/-- A completion output claiming seventeen articles. -/
def llmSeventeen : Str := pyS "\x7b\"article_count\": 17\x7d"

/-- Claim C6 witness: a completion response claiming `article_count = 17`
against a true fetched count of 5 yields 5, at a state whose plan is
present and with dict-shaped articles (so the prompt build succeeds). -/
theorem sentiment_true_article_count_witness :
    ((companyNameRead stSynth.financial_analysis).isSome = true) ∧
    (newsFive.articles ≠ []) ∧
    (sentPromptRaise newsFive.articles stSynth.analysis_plan = none) ∧
    (((json_parse (clean_json_response llmSeventeen)).getD
        (sentFallback newsFive.articles.length llmSeventeen)).isObj = true) ∧
    (∃ a, sentiment_agent stSynth newsFive llmSeventeen =
        some ({ sentiment_analysis := some (some a)
                messages := [sentMsg stSynth newsFive.articles.length a] },
              [Call.news, Call.llm]) ∧
      jFind a (pyS "article_count") = some (Json.num newsFive.articles.length) ∧
      jFind a (pyS "sample_articles") = some (Json.arr (newsFive.articles.take 5)) ∧
      (newsFive.articles.take 5).length ≤ 5 ∧
      newsFive.articles.take 5 <+: newsFive.articles) :=
  by
  refine ⟨rfl, ?_, rfl, rfl, ?_⟩
  · simp [newsFive]
  · exact sentiment_true_article_count stSynth
      newsFive llmSeventeen rfl rfl (by simp [newsFive]) rfl rfl

/-- Claim C7 (amended): with exactly one of the two analyses present, the
synthesizer makes no completion call and produces no recommendation, and its
returned `errors` list re-appends every pre-existing entry plus the one
missing-data message — so the merged log grows by one entry only when it was
empty at invocation (and the returned `messages` likewise re-append). -/
theorem synthesizer_missing_analysis (st : IState) (llm : Str)
    (h : (pyTruthyOpt st.financial_analysis = true ∧
          pyTruthyOpt st.sentiment_analysis = false) ∨
         (pyTruthyOpt st.financial_analysis = false ∧
          pyTruthyOpt st.sentiment_analysis = true)) :
    synthesizer_agent st llm =
      ({ fullReturn st with errors := st.errors ++ [errMissingSynth] }, []) ∧
    (mergeUpd st (synthesizer_agent st llm).1).recommendation = st.recommendation ∧
    (mergeUpd st (synthesizer_agent st llm).1).errors =
      st.errors ++ (st.errors ++ [errMissingSynth]) ∧
    (mergeUpd st (synthesizer_agent st llm).1).messages = st.messages ++ st.messages := by
  have hand : (pyTruthyOpt st.financial_analysis &&
      pyTruthyOpt st.sentiment_analysis) = false := by
    rcases h with ⟨h1, h2⟩ | ⟨h1, h2⟩ <;> simp [h1, h2]
  have heq : synthesizer_agent st llm =
      ({ fullReturn st with errors := st.errors ++ [errMissingSynth] }, []) := by
    unfold synthesizer_agent
    simp only [hand, Bool.not_false, if_true]
  exact ⟨heq, by rw [heq]; rfl, by rw [heq]; rfl, by rw [heq]; rfl⟩

/-- A state in which the financial analysis is present, the sentiment
analysis is absent, and one error has already been recorded (as the
sentiment stage's failure would leave it). -/
def stMissing : IState :=
  { ticker := pyS "N", user_query := pyS "q", analysis_plan := none
    financial_analysis := some (Json.obj [(pyS "assessment", Json.str (pyS "ok"))])
    sentiment_analysis := none, recommendation := none, confidence := none
    reasoning := none, messages := [], errors := [pyS "E"] }

/-- Claim C7 counterexample: with one pre-existing error the synthesizer's
whole-state return makes the final `errors` grow by two entries, not
exactly one. -/
theorem synthesizer_missing_analysis_counterexample :
    (pyTruthyOpt stMissing.financial_analysis = true ∧
     pyTruthyOpt stMissing.sentiment_analysis = false) ∧
    stMissing.errors.length = 1 ∧
    (mergeUpd stMissing (synthesizer_agent stMissing []).1).errors.length = 3 ∧
    ¬ ((mergeUpd stMissing (synthesizer_agent stMissing []).1).errors.length =
        stMissing.errors.length + 1) :=
  ⟨⟨rfl, rfl⟩, rfl, rfl, by decide⟩

/-- Claim C7 witness: the amended statement at the fixture state. -/
theorem synthesizer_missing_analysis_witness :
    ((pyTruthyOpt stMissing.financial_analysis = true ∧
      pyTruthyOpt stMissing.sentiment_analysis = false) ∨
     (pyTruthyOpt stMissing.financial_analysis = false ∧
      pyTruthyOpt stMissing.sentiment_analysis = true)) ∧
    (synthesizer_agent stMissing [] =
      ({ fullReturn stMissing with
         errors := stMissing.errors ++ [errMissingSynth] }, []) ∧
     (mergeUpd stMissing (synthesizer_agent stMissing []).1).recommendation =
       stMissing.recommendation ∧
     (mergeUpd stMissing (synthesizer_agent stMissing []).1).errors =
       stMissing.errors ++ (stMissing.errors ++ [errMissingSynth]) ∧
     (mergeUpd stMissing (synthesizer_agent stMissing []).1).messages =
       stMissing.messages ++ stMissing.messages) :=
  ⟨Or.inl ⟨rfl, rfl⟩, synthesizer_missing_analysis stMissing [] (Or.inl ⟨rfl, rfl⟩)⟩

/-- A parseable recommendation whose `confidence` is a non-numeric string,
making the log-message formatting raise. -/
def llmBadConf : Str :=
  pyS "\x7b\"action\": \"BUY\", \"confidence\": \"high\", \"reasoning\": \"r\"\x7d"

/-- Claim C10: the synthesis stage is not atomic on its catch-all error
path: a completion output that parses into an object with a non-numeric
`confidence` makes the `:.2f` formatting raise after the state assignments,
so the final state carries both a `Synthesizer error` entry and the written
`recommendation`, `confidence` and `reasoning` (and no log message). -/
theorem synthesizer_nonatomic_error_path :
    json_parse (clean_json_response llmBadConf) =
      some (Json.obj [(pyS "action", Json.str (pyS "BUY")),
                      (pyS "confidence", Json.str (pyS "high")),
                      (pyS "reasoning", Json.str (pyS "r"))]) ∧
    (mergeUpd stSynth (synthesizer_agent stSynth llmBadConf).1).errors =
      [pyS "Synthesizer error: Unknown format code 'f' for object of type 'str'"] ∧
    (mergeUpd stSynth (synthesizer_agent stSynth llmBadConf).1).recommendation =
      some (Json.obj [(pyS "action", Json.str (pyS "BUY")),
                      (pyS "confidence", Json.str (pyS "high")),
                      (pyS "reasoning", Json.str (pyS "r"))]) ∧
    (mergeUpd stSynth (synthesizer_agent stSynth llmBadConf).1).confidence =
      some (Json.str (pyS "high")) ∧
    (mergeUpd stSynth (synthesizer_agent stSynth llmBadConf).1).reasoning =
      some (Json.str (pyS "r")) ∧
    (mergeUpd stSynth (synthesizer_agent stSynth llmBadConf).1).messages = [] :=
  ⟨rfl, rfl, rfl, rfl, rfl, rfl⟩

theorem synthAfterParse_recommendation (st : IState) (recJ : Json) :
    (synthAfterParse st recJ).1.recommendation = some (some recJ) := by
  cases recJ with
  | obj fs =>
    unfold synthAfterParse
    cases hf : pyFormatF2 ((assocFind fs (pyS "confidence")).getD (Json.num 0)) with
    | none => simp [hf]
    | some s => simp [hf]
  | null => rfl
  | bool b => rfl
  | num q => rfl
  | str s => rfl
  | arr l => rfl
  | nan => rfl
  | inf => rfl
  | ninf => rfl

/-- Claim C3 (amended): the recommendation record the synthesis stage
writes is exactly the parsed completion object — its `action` field is
whatever the collaborator supplied, unconstrained — and on the
parse-failure fallback path the `action` is `HOLD` (the string `UNKNOWN`
appears only as the log message's default for a missing `action`). -/
theorem synthesizer_action_field (st : IState) (llm : Str)
    (h1 : pyTruthyOpt st.financial_analysis = true)
    (h2 : pyTruthyOpt st.sentiment_analysis = true)
    (h3 : synthPromptRaise (st.financial_analysis.getD Json.null)
        (st.sentiment_analysis.getD Json.null) st.analysis_plan = none) :
    (synthesizer_agent st llm).1.recommendation =
      some (some ((json_parse (clean_json_response llm)).getD (synthFallback llm))) ∧
    jFind (synthFallback llm) (pyS "action") = some (Json.str (pyS "HOLD")) := by
  have hand : (pyTruthyOpt st.financial_analysis &&
      pyTruthyOpt st.sentiment_analysis) = true := by simp [h1, h2]
  refine ⟨?_, rfl⟩
  unfold synthesizer_agent
  simp only [hand, Bool.not_true, Bool.false_eq_true, if_false, h3]
  exact synthAfterParse_recommendation st _

/-- Claim C3 counterexample: the completion output
`{"action": "MAYBE", "confidence": 1}` is written through unmodified, so the
produced `action` is `MAYBE`, which is none of BUY/HOLD/SELL/UNKNOWN (and
this is not the fallback path). -/
theorem synthesizer_action_field_counterexample :
    (mergeUpd stSynth
        (synthesizer_agent stSynth
          (pyS "\x7b\"action\": \"MAYBE\", \"confidence\": 1\x7d")).1).recommendation =
      some (Json.obj [(pyS "action", Json.str (pyS "MAYBE")),
                      (pyS "confidence", Json.num 1)]) ∧
    jFind (Json.obj [(pyS "action", Json.str (pyS "MAYBE")),
                     (pyS "confidence", Json.num 1)]) (pyS "action") =
      some (Json.str (pyS "MAYBE")) ∧
    pyS "MAYBE" ∉ [pyS "BUY", pyS "HOLD", pyS "SELL", pyS "UNKNOWN"] :=
  ⟨rfl, rfl, by decide⟩

/-- Claim C3 witness: a non-JSON completion output takes the fallback path,
whose action is `HOLD`. -/
theorem synthesizer_action_field_witness :
    (pyTruthyOpt stSynth.financial_analysis = true) ∧
    (pyTruthyOpt stSynth.sentiment_analysis = true) ∧
    (synthPromptRaise (stSynth.financial_analysis.getD Json.null)
        (stSynth.sentiment_analysis.getD Json.null) stSynth.analysis_plan = none) ∧
    ((synthesizer_agent stSynth (pyS "oops")).1.recommendation =
      some (some ((json_parse (clean_json_response (pyS "oops"))).getD
        (synthFallback (pyS "oops")))) ∧
     jFind (synthFallback (pyS "oops")) (pyS "action") = some (Json.str (pyS "HOLD"))) :=
  ⟨rfl, rfl, rfl, synthesizer_action_field stSynth (pyS "oops") rfl rfl rfl⟩

/-- The fundamentals stage's error entry for the empty-ticker fetch
failure raised by `MarketDataMCP.fetch_data`'s own validation. -/
def errMktEmptyTicker : Str :=
  pyS "Failed to fetch market data: Ticker must be a non-empty string"

/-- Claim C2 (amended): with an empty ticker the planner records its single
error, but the downstream stages do not consult the missing plan: both
data-fetch collaborators are still invoked (only the completion collaborator
never is); the fundamentals fetch fails deterministically on the empty
ticker and, when the news fetch also fails, each failing stage appends its
own error and — returning the whole state — re-appends all earlier ones, and
the synthesizer appends a missing-data error; no output records are
produced. -/
theorem pipeline_empty_ticker (uq err : Str) (arts : List Json)
    (mkt : MarketResult) (l1 l2 l3 : Str) :
    runPipeline [] uq
      { market := mkt
        news := { success := false, error := err, articles := arts }
        finLLM := l1, sentLLM := l2, synthLLM := l3 } =
      some ({ initialState [] uq with
              errors := [errNoTicker, errNoTicker, errMktEmptyTicker,
                         errNoTicker, errNoTicker, errMktEmptyTicker,
                         pyS "Failed to fetch news: " ++ err,
                         errNoTicker, errNoTicker, errMktEmptyTicker,
                         errNoTicker, errNoTicker, errMktEmptyTicker,
                         pyS "Failed to fetch news: " ++ err,
                         errMissingSynth] },
            [Call.market, Call.news]) := rfl

/-- Failure responses of both collaborators, for the empty-ticker run. -/
def c2oracle : Oracles :=
  { market := { success := true, error := [], fundamentals := Json.null
                history := Json.null, info := Json.obj [] }
    news := { success := false, error := pyS "boom", articles := [] }
    finLLM := [], sentLLM := [], synthLLM := [] }

/-- Claim C2 counterexample: on the empty-ticker run the downstream stages
do make collaborator calls and the final `errors` holds fifteen entries, not
just the planner's single one. -/
theorem pipeline_empty_ticker_counterexample :
    (runPipeline [] (pyS "q") c2oracle).map (fun p => p.1.errors.length) = some 15 ∧
    (runPipeline [] (pyS "q") c2oracle).map (fun p => p.2) =
      some [Call.market, Call.news] ∧
    ¬ (15 = 1) ∧ ([Call.market, Call.news] : List Call) ≠ [] :=
  ⟨rfl, rfl, by decide, by decide⟩

